import Mathlib

/-!
Shallow embedding of the core of the apptainer starter / crypt subsystem:

* `internal/pkg/util/crypt` (src/unnamed/part_001): `Open`,
  `CloseCryptDevice`, `EncryptFilesystem`, `checkCryptsetupVersion`,
  `copyDeviceContents`, incl. the `/dev/mapper` polling loop.
* `internal/app/starter/master_linux.go`: `startContainer`'s start-barrier
  protocol and the tail of `Master` (signal handling, exit codes).
* `internal/pkg/runtime/engine/apptainer/rpc/args.go`: the `fileInfo`
  RPC snapshot.

External effects (cryptsetup invocations, file stats, uuid generation,
socket reads) are passed in as explicit environments; machine behaviour
of the Go standard library (`strings.Contains`, `signal.Notify`,
`syscall.WaitStatus`) is embedded directly from its documented semantics.
-/

/-! ## String helpers (Go `strings.Contains`) -/

/-- `leadsWith n h` is true when the char list `n` is an initial segment
of `h` (helper for the substring test). -/
def leadsWith : List Char → List Char → Bool
  | [], _ => true
  | _ :: _, [] => false
  | a :: as, b :: bs => a == b && leadsWith as bs

/-- `hasSub n h`: the char list `n` occurs contiguously inside `h`. -/
def hasSub : List Char → List Char → Bool
  | n, [] => leadsWith n []
  | n, c :: t => leadsWith n (c :: t) || hasSub n t

/-- Go `strings.Contains s sub`. -/
def strContains (s sub : String) : Bool :=
  hasSub sub.toList s.toList

/-! ## Errors of the crypt package -/

/-- Errors produced by the crypt-layer functions; each constructor stands
for one `errors.New` / `fmt.Errorf` site in the source. -/
inductive CErr where
  | lockFailed
  | binNotFound
  | notOwnedByRoot (bin : String)
  | uuidFailed
  | emptyDeviceName
  | versionBinUndefined
  | versionRunFailed
  | unsupportedVersion
  | invalidPassphrase
  | openFailed (out : String)
  | openExhausted
  | deviceTimeout (name : String)
  | statErrOther
  | statFailed
  | tempFailed
  | truncateFailed
  | loopFailed
  | formatFailed (out : String)
  | copyFailed
  | closeRunFailed
  deriving DecidableEq, Repr

/-- The message carried by each error value, quoted from the source. -/
def errMessage : CErr → String
  | .lockFailed => "unable to acquire lock on /dev/mapper"
  | .binNotFound => "cryptsetup not found"
  | .notOwnedByRoot bin => bin ++ " must be owned by root"
  | .uuidFailed => "id generation failed"
  | .emptyDeviceName => "crypt device not available"
  | .versionBinUndefined => "binary path not defined"
  | .versionRunFailed => "failed to run cryptsetup --version"
  | .unsupportedVersion =>
      "installed version of cryptsetup is not supported, >=2.0.0 required"
  | .invalidPassphrase => "no key available with this passphrase"
  | .openFailed out => "cryptsetup open failed: " ++ out
  | .openExhausted => "unable to open crypt device"
  | .deviceTimeout name => "device /dev/mapper/" ++ name ++ " did not show up"
  | .statErrOther => "stat failed"
  | .statFailed => "failed getting size"
  | .tempFailed => "error creating temporary crypt file"
  | .truncateFailed => "unable to truncate crypt file"
  | .loopFailed => "failed to attach image"
  | .formatFailed out => "unable to format crypt device: " ++ out
  | .copyFailed => "unable to copy device contents"
  | .closeRunFailed => "unable to delete the crypt device"

/-! ## `checkCryptsetupVersion` -/

/-- `checkCryptsetupVersion` from the source: runs `cryptsetup --version`
and requires the output to contain `"cryptsetup 2."`.  `runOk` is whether
the `--version` invocation itself succeeded and `out` its combined
output.  Returns `none` on success, mirroring a `nil` error. -/
def checkCryptsetupVersion (bin : String) (runOk : Bool) (out : String) :
    Option CErr :=
  if bin = "" then some CErr.versionBinUndefined
  else if !runOk then some CErr.versionRunFailed
  else if !(strContains out "cryptsetup 2.") then some CErr.unsupportedVersion
  else none

/-! ## The `/dev/mapper/<name>` polling loop inside `Open` -/

/-- One nanosecond count of `time.Millisecond`. -/
def msNS : Nat := 1000000

/-- Result of one `os.Stat("/dev/mapper/"+name)` during polling:
the file exists, it does not exist (`os.ErrNotExist`), or `Stat`
failed with some other error. -/
inductive StatRes where
  | found
  | absent
  | failed
  deriving DecidableEq, Repr

/-- Result of the polling loop, together with the list of sleep
durations (in nanoseconds) actually performed, in order. -/
inductive PollRes where
  | opened (sleeps : List Nat)
  | timedOut (sleeps : List Nat)
  | statFailed (sleeps : List Nat)
  deriving DecidableEq, Repr

/-- Record one performed sleep in front of a poll result. -/
def attachSleep (d : Nat) : PollRes → PollRes
  | .opened l => .opened (d :: l)
  | .timedOut l => .timedOut (d :: l)
  | .statFailed l => .statFailed (d :: l)

/-- The `for attempt := 0; true; attempt++` polling loop of `Open`:
stat the mapper file; on `ErrNotExist` compute
`delayNext = 100 * (1 << attempt) * time.Millisecond` and
`delaySoFar = delayNext - 1`; abort once `delaySoFar >= 25500ms`,
otherwise sleep `delayNext` and retry. -/
def mapperPoll (stat : Nat → StatRes) (attempt : Nat) : PollRes :=
  match stat attempt with
  | .found => .opened []
  | .failed => .statFailed []
  | .absent =>
      if 100 * 2 ^ attempt * msNS - 1 ≥ 25500 * msNS then .timedOut []
      else attachSleep (100 * 2 ^ attempt * msNS) (mapperPoll stat (attempt + 1))
termination_by 9 - attempt
decreasing_by
  rename_i h2
  rw [not_le] at h2
  have ha : attempt ≤ 7 := by
    by_contra hc
    rw [not_le] at hc
    have h8 : (2 : Nat) ^ 8 ≤ 2 ^ attempt := Nat.pow_le_pow_right (by norm_num) hc
    have hm : msNS = 1000000 := rfl
    rw [hm] at h2
    omega
  omega

theorem mapperPoll_found (stat : Nat → StatRes) (a : Nat) (h : stat a = .found) :
    mapperPoll stat a = .opened [] := by
  unfold mapperPoll
  rw [h]

theorem mapperPoll_statFailed (stat : Nat → StatRes) (a : Nat) (h : stat a = .failed) :
    mapperPoll stat a = .statFailed [] := by
  unfold mapperPoll
  rw [h]

theorem mapperPoll_absent_small (stat : Nat → StatRes) (a : Nat)
    (h : stat a = .absent) (ha : a ≤ 7) :
    mapperPoll stat a = attachSleep (100 * 2 ^ a * msNS) (mapperPoll stat (a + 1)) := by
  conv_lhs => rw [mapperPoll.eq_def]
  rw [h]
  have hlt : ¬(100 * 2 ^ a * msNS - 1 ≥ 25500 * msNS) := by
    rw [not_le]
    have h7 : (2 : Nat) ^ a ≤ 2 ^ 7 := Nat.pow_le_pow_right (by norm_num) ha
    have hm : msNS = 1000000 := rfl
    rw [hm]
    omega
  rw [if_neg hlt]

theorem mapperPoll_absent_timeout (stat : Nat → StatRes) (a : Nat)
    (h : stat a = .absent) (ha : 8 ≤ a) :
    mapperPoll stat a = .timedOut [] := by
  unfold mapperPoll
  rw [h]
  have hge : 100 * 2 ^ a * msNS - 1 ≥ 25500 * msNS := by
    have h8 : (2 : Nat) ^ 8 ≤ 2 ^ a := Nat.pow_le_pow_right (by norm_num) ha
    have hm : msNS = 1000000 := rfl
    rw [hm]
    omega
  rw [if_pos hge]

theorem attachSleep_timedOut_iff (d : Nat) (r : PollRes) :
    (∃ l, attachSleep d r = .timedOut l) ↔ (∃ l, r = .timedOut l) := by
  cases r <;> simp [attachSleep]

/-- Splitting the first element off the sleep schedule. -/
theorem pollSleepsShift (a n : Nat) :
    (List.range (n + 1)).map (fun j => 100 * 2 ^ (a + j) * msNS) =
      (100 * 2 ^ a * msNS) :: ((List.range n).map fun j => 100 * 2 ^ (a + 1 + j) * msNS) := by
  have hcons : ∀ (x y : Nat) (l1 l2 : List Nat), x = y → l1 = l2 → x :: l1 = y :: l2 := by
    intro x y l1 l2 hx hl
    rw [hx, hl]
  rw [List.range_succ_eq_map, List.map_cons, List.map_map]
  apply hcons
  · rw [Nat.add_zero]
  · apply List.map_congr_left
    intro j _
    show 100 * 2 ^ (a + (j + 1)) * msNS = 100 * 2 ^ (a + 1 + j) * msNS
    have hidx : a + (j + 1) = a + 1 + j := by omega
    rw [hidx]

/-- The polling loop from attempt `a` (with `a + n = 8`) times out iff the
mapper file is absent at every remaining check. -/
theorem mapperPoll_timeout_iff_aux (stat : Nat → StatRes) :
    ∀ n a, a + n = 8 →
      ((∃ l, mapperPoll stat a = .timedOut l) ↔
        ∀ k, a ≤ k → k ≤ 8 → stat k = .absent) := by
  intro n
  induction n with
  | zero =>
    intro a h8
    have ha : a = 8 := by omega
    subst ha
    cases hstat : stat 8 with
    | found =>
      rw [mapperPoll_found stat 8 hstat]
      constructor
      · rintro ⟨l, hl⟩; cases hl
      · intro hall
        have := hall 8 (by omega) (by omega)
        rw [hstat] at this
        cases this
    | failed =>
      rw [mapperPoll_statFailed stat 8 hstat]
      constructor
      · rintro ⟨l, hl⟩; cases hl
      · intro hall
        have := hall 8 (by omega) (by omega)
        rw [hstat] at this
        cases this
    | absent =>
      rw [mapperPoll_absent_timeout stat 8 hstat (by omega)]
      constructor
      · intro _ k hk1 hk2
        have : k = 8 := by omega
        subst this
        exact hstat
      · intro _
        exact ⟨[], rfl⟩
  | succ n ih =>
    intro a h8
    have ha7 : a ≤ 7 := by omega
    cases hstat : stat a with
    | found =>
      rw [mapperPoll_found stat a hstat]
      constructor
      · rintro ⟨l, hl⟩; cases hl
      · intro hall
        have := hall a (by omega) (by omega)
        rw [hstat] at this
        cases this
    | failed =>
      rw [mapperPoll_statFailed stat a hstat]
      constructor
      · rintro ⟨l, hl⟩; cases hl
      · intro hall
        have := hall a (by omega) (by omega)
        rw [hstat] at this
        cases this
    | absent =>
      rw [mapperPoll_absent_small stat a hstat ha7]
      rw [attachSleep_timedOut_iff]
      rw [ih (a + 1) (by omega)]
      constructor
      · intro hall k hk1 hk2
        rcases Nat.eq_or_lt_of_le hk1 with heq | hlt
        · rw [← heq]; exact hstat
        · exact hall k (by omega) hk2
      · intro hall k hk1 hk2
        exact hall k (by omega) hk2

/-- On an all-absent run from attempt `a` (with `a + n = 8`) the loop
sleeps exactly `100 * 2 ^ (a + j)` ms for `j < n` and then times out. -/
theorem mapperPoll_timeout_sleeps_aux (stat : Nat → StatRes) :
    ∀ n a, a + n = 8 → (∀ k, a ≤ k → k ≤ 8 → stat k = .absent) →
      mapperPoll stat a =
        .timedOut ((List.range n).map fun j => 100 * 2 ^ (a + j) * msNS) := by
  intro n
  induction n with
  | zero =>
    intro a h8 hall
    have ha : a = 8 := by omega
    subst ha
    rw [mapperPoll_absent_timeout stat 8 (hall 8 (by omega) (by omega)) (by omega)]
    rfl
  | succ n ih =>
    intro a h8 hall
    have ha7 : a ≤ 7 := by omega
    rw [mapperPoll_absent_small stat a (hall a (by omega) (by omega)) ha7]
    rw [ih (a + 1) (by omega) (fun k hk1 hk2 => hall k (by omega) hk2)]
    rw [pollSleepsShift a n]
    rfl

/-- If the mapper file first shows up at check `k = a + m ≤ 8`, the loop
succeeds after sleeping `100 * 2 ^ (a + j)` ms for `j < m`. -/
theorem mapperPoll_opened_aux (stat : Nat → StatRes) :
    ∀ m a, a + m ≤ 8 → (∀ j, a ≤ j → j < a + m → stat j = .absent) →
      stat (a + m) = .found →
      mapperPoll stat a =
        .opened ((List.range m).map fun j => 100 * 2 ^ (a + j) * msNS) := by
  intro m
  induction m with
  | zero =>
    intro a _ _ hf
    rw [Nat.add_zero] at hf
    rw [mapperPoll_found stat a hf]
    rfl
  | succ m ih =>
    intro a h8 habs hf
    have ha7 : a ≤ 7 := by omega
    rw [mapperPoll_absent_small stat a (habs a (by omega) (by omega)) ha7]
    have hf' : stat (a + 1 + m) = .found := by
      have : a + 1 + m = a + (m + 1) := by omega
      rw [this]; exact hf
    rw [ih (a + 1) (by omega) (fun j hj1 hj2 => habs j (by omega) (by omega)) hf']
    rw [pollSleepsShift a m]
    rfl

/-! ## `Open` -/

/-- Environment of one call to `(*Device).Open(key, path)`: outcome of the
`/dev/mapper` lock, the located `cryptsetup` binary and its owner check,
the per-attempt uuid generation (`getNextAvailableCryptDevice`), the
per-attempt result and combined output of `cryptsetup open`, the
`--version` invocation, and the per-attempt mapper-file polling. -/
structure OpenEnv where
  lockOk : Bool
  findBin : Option String
  ownedByRoot : Bool
  uuidGen : Nat → Option String
  openOk : Nat → Bool
  openOut : Nat → String
  versionRunOk : Bool
  versionOut : String
  mapperStat : Nat → Nat → StatRes

/-- Result of `Open`: the returned mapper name or error, plus whether any
`cryptsetup open` command was invoked during the call. -/
structure OpenResult where
  res : Except CErr String
  ranOpen : Bool
  deriving Repr

/-- The `for i := 0; i < maxRetries; i++` loop of `Open`
(`maxRetries = 3`): generate a uuid name, run `cryptsetup open`; on
failure, retry when the output contains "Device already exists", return
the unsupported-version error when `checkCryptsetupVersion` reports it,
return `ErrInvalidPassphrase` when the output contains
"No key available", else the raw error; on success poll for
`/dev/mapper/<name>`. -/
def openLoop (env : OpenEnv) (bin : String) (i : Nat) : OpenResult :=
  if i < 3 then
    match env.uuidGen i with
    | none => ⟨.error CErr.uuidFailed, false⟩
    | some name =>
      if name = "" then ⟨.error CErr.emptyDeviceName, false⟩
      else if env.openOk i then
        match mapperPoll (env.mapperStat i) 0 with
        | .opened _ => ⟨.ok name, true⟩
        | .timedOut _ => ⟨.error (CErr.deviceTimeout name), true⟩
        | .statFailed _ => ⟨.error CErr.statErrOther, true⟩
      else if strContains (env.openOut i) "Device already exists" then
        ⟨(openLoop env bin (i + 1)).res, true⟩
      else if checkCryptsetupVersion bin env.versionRunOk env.versionOut =
          some CErr.unsupportedVersion then
        ⟨.error CErr.unsupportedVersion, true⟩
      else if strContains (env.openOut i) "No key available" then
        ⟨.error CErr.invalidPassphrase, true⟩
      else ⟨.error (CErr.openFailed (env.openOut i)), true⟩
  else ⟨.error CErr.openExhausted, false⟩
termination_by 3 - i
decreasing_by
  rename_i h3 _ _
  omega

/-- `(*Device).Open`: take the exclusive lock on `/dev/mapper`, locate
`cryptsetup`, require it to be owned by uid 0, then run the retry loop. -/
def openDevice (env : OpenEnv) : OpenResult :=
  if env.lockOk then
    match env.findBin with
    | none => ⟨.error CErr.binNotFound, false⟩
    | some bin =>
      if env.ownedByRoot then openLoop env bin 0
      else ⟨.error (CErr.notOwnedByRoot bin), false⟩
  else ⟨.error CErr.lockFailed, false⟩

/-- A name-collision attempt just recurses: the result of the call is the
result from the next attempt (with the open command recorded as run). -/
theorem openLoop_collide (env : OpenEnv) (bin : String) (i : Nat) (n : String)
    (h3 : i < 3) (hu : env.uuidGen i = some n) (hn : ¬(n = ""))
    (ho : env.openOk i = false)
    (hd : strContains (env.openOut i) "Device already exists" = true) :
    openLoop env bin i = ⟨(openLoop env bin (i + 1)).res, true⟩ := by
  conv_lhs => rw [openLoop.eq_def]
  simp [h3, hu, hn, ho, hd]

/-- Past the last attempt the loop fails with the
"unable to open crypt device" error. -/
theorem openLoop_exhausted (env : OpenEnv) (bin : String) (i : Nat) (h3 : ¬(i < 3)) :
    openLoop env bin i = ⟨.error CErr.openExhausted, false⟩ := by
  rw [openLoop.eq_def, if_neg h3]

/-- If the first `i` attempts all collide, the result of the loop started
at `0` is the result of the loop started at `i`. -/
theorem openLoop_reach (env : OpenEnv) (bin : String) (nms : Nat → String) :
    ∀ i, i ≤ 3 →
      (∀ j, j < i → env.uuidGen j = some (nms j) ∧ ¬(nms j = "") ∧
        env.openOk j = false ∧
        strContains (env.openOut j) "Device already exists" = true) →
      (openLoop env bin 0).res = (openLoop env bin i).res := by
  intro i
  induction i with
  | zero => intro _ _; rfl
  | succ i ih =>
    intro hle hcoll
    have hprev : (openLoop env bin 0).res = (openLoop env bin i).res :=
      ih (by omega) (fun j hj => hcoll j (by omega))
    rcases hcoll i (by omega) with ⟨hu, hn, ho, hd⟩
    rw [hprev, openLoop_collide env bin i (nms i) (by omega) hu hn ho hd]

/-- A 2.x `--version` output rules out the unsupported-version error. -/
theorem checkVersion_two (bin : String) (runOk : Bool) (out : String)
    (h1 : runOk = true) (h2 : strContains out "cryptsetup 2." = true) :
    ¬(checkCryptsetupVersion bin runOk out = some CErr.unsupportedVersion) := by
  unfold checkCryptsetupVersion
  by_cases hb : bin = "" <;> simp [hb, h1, h2]

/-- A non-2.x `--version` output yields exactly the
unsupported-version error (for a located, hence non-empty, binary path). -/
theorem checkVersion_old (bin : String) (runOk : Bool) (out : String)
    (hb : ¬(bin = "")) (h1 : runOk = true)
    (h2 : strContains out "cryptsetup 2." = false) :
    checkCryptsetupVersion bin runOk out = some CErr.unsupportedVersion := by
  unfold checkCryptsetupVersion
  simp [hb, h1, h2]

/-- Evaluation of a successful attempt whose mapper device shows up. -/
theorem openLoop_success (env : OpenEnv) (bin : String) (i : Nat) (n : String)
    (l : List Nat) (h3 : i < 3) (hu : env.uuidGen i = some n) (hn : ¬(n = ""))
    (ho : env.openOk i = true)
    (hp : mapperPoll (env.mapperStat i) 0 = .opened l) :
    openLoop env bin i = ⟨.ok n, true⟩ := by
  conv_lhs => rw [openLoop.eq_def]
  simp [h3, hu, hn, ho, hp]

/-- Evaluation of a successful attempt whose mapper device never
shows up: the device-did-not-show-up error. -/
theorem openLoop_timeout (env : OpenEnv) (bin : String) (i : Nat) (n : String)
    (l : List Nat) (h3 : i < 3) (hu : env.uuidGen i = some n) (hn : ¬(n = ""))
    (ho : env.openOk i = true)
    (hp : mapperPoll (env.mapperStat i) 0 = .timedOut l) :
    openLoop env bin i = ⟨.error (CErr.deviceTimeout n), true⟩ := by
  conv_lhs => rw [openLoop.eq_def]
  simp [h3, hu, hn, ho, hp]

/-- Evaluation of a failed attempt whose output reports
"No key available" (and no collision), with a supported cryptsetup. -/
theorem openLoop_invalidPass (env : OpenEnv) (bin : String) (i : Nat) (n : String)
    (h3 : i < 3) (hu : env.uuidGen i = some n) (hn : ¬(n = ""))
    (ho : env.openOk i = false)
    (hd : strContains (env.openOut i) "Device already exists" = false)
    (hv : ¬(checkCryptsetupVersion bin env.versionRunOk env.versionOut =
      some CErr.unsupportedVersion))
    (hk : strContains (env.openOut i) "No key available" = true) :
    openLoop env bin i = ⟨.error CErr.invalidPassphrase, true⟩ := by
  conv_lhs => rw [openLoop.eq_def]
  simp [h3, hu, hn, ho, hd, hv, hk]

/-! ## `CloseCryptDevice` -/

/-- Environment of one call to `(*Device).CloseCryptDevice(path)`. -/
structure CloseEnv where
  findBin : Option String
  ownedByRoot : Bool
  lockOk : Bool
  closeRunOk : Bool

/-- Result of `CloseCryptDevice`: `none` for a `nil` error, plus whether
the `cryptsetup close` command was invoked. -/
structure CloseResult where
  err : Option CErr
  ranClose : Bool
  deriving DecidableEq, Repr

/-- `(*Device).CloseCryptDevice`: locate `cryptsetup`, require uid-0
ownership, take the `/dev/mapper` lock, run `cryptsetup close <path>`
with uid/gid forced to 0. -/
def closeCryptDevice (env : CloseEnv) : CloseResult :=
  match env.findBin with
  | none => ⟨some CErr.binNotFound, false⟩
  | some bin =>
    if env.ownedByRoot then
      if env.lockOk then
        if env.closeRunOk then ⟨none, true⟩
        else ⟨some CErr.closeRunFailed, true⟩
      else ⟨some CErr.lockFailed, false⟩
    else ⟨some (CErr.notOwnedByRoot bin), false⟩

/-! ## `EncryptFilesystem` -/

/-- Environment of one call to
`(*Device).EncryptFilesystem(path, key, tempdir)`. -/
structure EncEnv where
  statOk : Bool
  fileSize : Nat
  tempOk : Bool
  tempName : String
  truncOk : Bool
  loopOk : Bool
  findBin : Option String
  ownedByRoot : Bool
  formatOk : Bool
  formatOut : String
  versionRunOk : Bool
  versionOut : String
  openRes : Except CErr String
  copyOk : Bool
  closeOk : Bool

/-- Result of `EncryptFilesystem`: the returned temp-file path or error,
whether a loop device had been attached for this invocation at the
moment of return, and whether `cryptsetup luksFormat` was invoked. -/
structure EncResult where
  res : Except CErr String
  loopAttached : Bool
  ranFormat : Bool
  deriving Repr

/-- The size passed to `os.Truncate`: image size plus 16 MiB for the
LUKS2 header and overhead. -/
def encDevSize (fileSize : Nat) : Nat :=
  fileSize + 16 * 1024 * 1024

/-- `(*Device).EncryptFilesystem`: stat the image, create and truncate a
temp file of `encDevSize`, attach it to a loop device (`createLoop`),
locate `cryptsetup` and require uid-0 ownership, run `luksFormat`
(falling back to the version check on failure), `Open` the formatted
device, copy `fileSize` bytes into the mapper, and `cryptsetup close`
it.  Note that the loop device is attached before `cryptsetup` is ever
invoked. -/
def encryptFilesystem (env : EncEnv) : EncResult :=
  if !env.statOk then ⟨.error CErr.statFailed, false, false⟩
  else if !env.tempOk then ⟨.error CErr.tempFailed, false, false⟩
  else if !env.truncOk then ⟨.error CErr.truncateFailed, false, false⟩
  else if !env.loopOk then ⟨.error CErr.loopFailed, false, false⟩
  else
    match env.findBin with
    | none => ⟨.error CErr.binNotFound, true, false⟩
    | some bin =>
      if !env.ownedByRoot then ⟨.error (CErr.notOwnedByRoot bin), true, false⟩
      else if !env.formatOk then
        if checkCryptsetupVersion bin env.versionRunOk env.versionOut =
            some CErr.unsupportedVersion then
          ⟨.error CErr.unsupportedVersion, true, true⟩
        else ⟨.error (CErr.formatFailed env.formatOut), true, true⟩
      else
        match env.openRes with
        | .error e => ⟨.error e, true, true⟩
        | .ok _nextCrypt =>
          if !env.copyOk then ⟨.error CErr.copyFailed, true, true⟩
          else if !env.closeOk then ⟨.error CErr.closeRunFailed, true, true⟩
          else ⟨.ok env.tempName, true, true⟩

/-! ## `startContainer` (master_linux.go) -/

/-- Result of one `conn.Read(data)` on a 1-byte buffer: one byte read
(`nil` error), `io.EOF` with the buffer untouched, or another error. -/
inductive ReadRes where
  | byteRead (b : Nat)
  | eofRes
  | errRes
  deriving DecidableEq, Repr

/-- The ASCII code of the start-barrier failure byte `'f'`. -/
def barrierFatalByte : Nat := 102

/-- Environment of one run of `startContainer`: whether the
`net.FileConn` setup succeeded, whether the engine implements the
optional `PreStartProcess` hook, whether `PreStartProcess` and
`PostStartProcess` return `nil`, and the successive results of
`conn.Read` on the master socket. -/
structure StartEnv where
  connOk : Bool
  hasPre : Bool
  preOk : Bool
  postOk : Bool
  reads : Nat → ReadRes

/-- Observable outcome of `startContainer`: which engine hooks were
invoked and whether an error was sent on `fatalChan`. -/
structure StartOut where
  calledPre : Bool
  calledPost : Bool
  sentFatal : Bool
  deriving DecidableEq, Repr

/-- The read at line 108 of master_linux.go and what follows:
`if (err != nil && err != io.EOF) || data[0] == 'f' { return }` and
then `PostStartProcess`.  `buf` is the current content of `data[0]`,
which an EOF read leaves untouched. -/
def finishStart (env : StartEnv) (ridx : Nat) (buf : Nat) (pre : Bool) : StartOut :=
  match env.reads ridx with
  | .errRes => ⟨pre, false, false⟩
  | .eofRes =>
    if buf = barrierFatalByte then ⟨pre, false, false⟩
    else if env.postOk then ⟨pre, true, false⟩ else ⟨pre, true, true⟩
  | .byteRead b =>
    if b = barrierFatalByte then ⟨pre, false, false⟩
    else if env.postOk then ⟨pre, true, false⟩ else ⟨pre, true, true⟩

/-- `startContainer`: when the engine implements `PreStartProcess`,
read one barrier byte first (EOF or `'f'` defer to the monitor, a
non-EOF error is fatal), run `PreStartProcess`, then fall through to
the common second read; engines without the hook go straight to the
single read.  `data` starts as `make([]byte, 1)`, i.e. holding `0`. -/
def startContainer (env : StartEnv) : StartOut :=
  if !env.connOk then ⟨false, false, true⟩
  else if env.hasPre then
    match env.reads 0 with
    | .errRes => ⟨false, false, true⟩
    | .eofRes => ⟨false, false, false⟩
    | .byteRead b =>
      if b = barrierFatalByte then ⟨false, false, false⟩
      else if !env.preOk then ⟨true, false, true⟩
      else finishStart env 1 b true
  else finishStart env 0 0 false

/-! ## `Master` (master_linux.go): signal queueing and exit status -/

/-- `SIGURG` on Linux. -/
def sigURG : Nat := 23

/-- The capacity of the `signals` channel in `Master`
(`make(chan os.Signal, 2)`). -/
def masterSignalChanCapacity : Nat := 2

/-- The signal list passed to `signal.Notify` in `Master` — none, since
the call is `signal.Notify(signals)`. -/
def masterNotifySignals : List Nat := []

/-- Go `os/signal` semantics of `signal.Notify(c, sig...)`: if `sig` is
empty, every incoming signal is relayed to `c`, otherwise exactly the
listed ones. -/
def notifyRelays (registered : List Nat) (s : Nat) : Bool :=
  registered.isEmpty || registered.contains s

/-- Whether `Master`'s signal handler queues signal `s` into the
`signals` channel. -/
def masterQueuesSignal (s : Nat) : Bool :=
  notifyRelays masterNotifySignals s

/-- Linux `syscall.WaitStatus.Exited`: `w & 0x7F == 0`. -/
def waitExited (w : Nat) : Bool := w &&& 0x7f == 0

/-- Linux `syscall.WaitStatus.ExitStatus` for an exited status:
`(w >> 8) & 0xFF`. -/
def waitExitStatus (w : Nat) : Nat := (w >>> 8) &&& 0xff

/-- Linux `syscall.WaitStatus.Signaled`:
`w & 0x7F != 0x7F && w & 0x7F != 0`. -/
def waitSignaled (w : Nat) : Bool :=
  !(w &&& 0x7f == 0x7f) && !(w &&& 0x7f == 0)

/-- Linux `syscall.WaitStatus.Signal` for a signaled status: `w & 0x7F`. -/
def waitSignal (w : Nat) : Nat := w &&& 0x7f

/-- Observable tail behaviour of `Master` once `fatalChan` delivered:
whether `sylog.Fatalf` aborted, whether `signal.Reset()` ran, which
signal (if any) the master re-raised on itself, and the code passed to
`os.Exit`. -/
structure MasterFinish where
  fatalAbort : Bool
  resetSignals : Bool
  raised : Option Nat
  exitCode : Nat
  deriving DecidableEq, Repr

/-- The tail of `Master` after `fatal := <-fatalChan` and
`CleanupContainer`: on a fatal error `sylog.Fatalf` exits (non-zero
code supplied by the logging package, modelled as 255); otherwise reset
signal handlers, then exit `128 + sig` after re-raising `sig` when the
child was signaled, or the child's exit status when it exited. -/
def masterFinish (hasFatal : Bool) (w : Nat) : MasterFinish :=
  if hasFatal then ⟨true, false, none, 255⟩
  else if waitSignaled w then
    ⟨false, true, some (waitSignal w), 128 + waitSignal w⟩
  else if waitExited w then ⟨false, true, none, waitExitStatus w⟩
  else ⟨false, true, none, 0⟩

/-! ## `copyDeviceContents` -/

/-- Result of one `syscall.Read` / `syscall.Write`: byte count or error. -/
inductive IORes where
  | ok (n : Nat)
  | fail
  deriving DecidableEq, Repr

/-- Result of the inner `for n := 0; n < numRead;` write loop. -/
inductive InnerRes where
  | fuelOut
  | wErr
  | done (wIdx : Nat) (written : Nat)
  deriving DecidableEq, Repr

/-- The inner write loop of `copyDeviceContents`: write `buffer[n:]`
(i.e. `numRead - n` bytes) until `n >= numRead`, accumulating the
returned counts.  `writes idx req` is the result of the `idx`-th write
call when asked for `req` bytes.  `fuel` bounds the number of write
calls; each successful write of at least one byte makes progress, so
`numRead` fuel suffices. -/
def writeFull (writes : Nat → Nat → IORes) (fuel wIdx n numRead : Nat) : InnerRes :=
  if n < numRead then
    match fuel with
    | 0 => .fuelOut
    | f + 1 =>
      match writes wIdx (numRead - n) with
      | .fail => .wErr
      | .ok m => writeFull writes f (wIdx + 1) (n + m) numRead
  else .done wIdx n
termination_by fuel
decreasing_by
  omega

/-- Result of the outer loop of `copyDeviceContents`.  `fuelOut` means
the given number of outer iterations did not finish the loop; a result
of `fuelOut` for every fuel is non-termination. -/
inductive CopyRes where
  | fuelOut
  | readErr
  | writeErr
  | success (written : Nat)
  deriving DecidableEq, Repr

/-- The outer `for writtenSoFar < size` loop of `copyDeviceContents`:
read up to 10240 bytes (`reads rIdx` is the byte count or error of the
`rIdx`-th read), write them all via the inner loop, and add the written
count to `writtenSoFar`.  A read of 0 bytes with a `nil` error (EOF)
adds nothing and the loop re-runs unchanged. -/
def copyLoop (reads : Nat → IORes) (writes : Nat → Nat → IORes) (size : Nat)
    (fuel rIdx wIdx written : Nat) : CopyRes :=
  if written < size then
    match fuel with
    | 0 => .fuelOut
    | f + 1 =>
      match reads rIdx with
      | .fail => .readErr
      | .ok numRead =>
        match writeFull writes numRead wIdx 0 numRead with
        | .fuelOut => .fuelOut
        | .wErr => .writeErr
        | .done wIdx2 delta => copyLoop reads writes size f (rIdx + 1) wIdx2 (written + delta)
  else .success written
termination_by fuel
decreasing_by
  omega

/-- Sum of the read chunk sizes `c r, c (r+1), ..., c (r+t-1)`. -/
def psumFrom (c : Nat → Nat) : Nat → Nat → Nat
  | _, 0 => 0
  | r, t + 1 => c r + psumFrom c (r + 1) t

/-- Well-behaved write syscalls: a positive request writes at least one
and at most the requested number of bytes. -/
def writesOk (writes : Nat → Nat → IORes) : Prop :=
  ∀ i req, 0 < req → ∃ m, writes i req = .ok m ∧ 0 < m ∧ m ≤ req

/-! ## `fileInfo` (rpc/args.go) -/

/-- The `fileInfo` struct of rpc/args.go.  `T` models the captured
`time.Time` as nanoseconds, `0` being the zero `time.Time`; `Sy` is the
opaque `Sys()` payload. -/
structure fileInfoRec where
  N : String
  S : Int
  M : Nat
  T : Nat
  Sy : Option String
  deriving DecidableEq, Repr

/-- `FileInfo(fi)`: capture name, size, mode, mod-time and sys. -/
def mkFileInfo (name : String) (size : Int) (mode : Nat) (mtime : Nat)
    (sys : Option String) : fileInfoRec :=
  ⟨name, size, mode, mtime, sys⟩

/-- `time.Time.IsZero` in the model. -/
def timeIsZero (t : Nat) : Bool := t == 0

/-- `fileInfo.Name()`. -/
def fiName (fi : fileInfoRec) : String := fi.N

/-- `fileInfo.Size()`. -/
def fiSize (fi : fileInfoRec) : Int := fi.S

/-- `fileInfo.Mode()`. -/
def fiMode (fi : fileInfoRec) : Nat := fi.M

/-- `fileInfo.ModTime()`: `if fi.T.IsZero() { return time.Now() }`;
`now` is the wall-clock time at the moment of the call. -/
def fiModTime (fi : fileInfoRec) (now : Nat) : Nat :=
  if timeIsZero fi.T then now else fi.T

/-- With well-behaved writes and fuel at least the remaining byte count,
the inner write loop finishes having written exactly `numRead` bytes. -/
theorem writeFull_done (writes : Nat → Nat → IORes) (hw : writesOk writes) :
    ∀ fuel n wIdx numRead, n ≤ numRead → numRead - n ≤ fuel →
      ∃ w2, writeFull writes fuel wIdx n numRead = .done w2 numRead := by
  intro fuel
  induction fuel with
  | zero =>
    intro n wIdx numRead hle hfuel
    have hn : n = numRead := by omega
    subst hn
    rw [writeFull.eq_def, if_neg (by omega)]
    exact ⟨wIdx, rfl⟩
  | succ f ih =>
    intro n wIdx numRead hle hfuel
    by_cases hlt : n < numRead
    · rcases hw wIdx (numRead - n) (by omega) with ⟨m, hm, hm1, hm2⟩
      rw [writeFull.eq_def, if_pos hlt]
      rw [hm]
      exact ih (n + m) (wIdx + 1) numRead (by omega) (by omega)
    · have hn : n = numRead := by omega
      subst hn
      rw [writeFull.eq_def, if_neg (by omega)]
      exact ⟨wIdx, rfl⟩

/-- If every remaining read returns 0 bytes with a `nil` error (the
source file is at end-of-file) while fewer than `size` bytes have been
written, the copy loop makes no progress: it exhausts any amount of
fuel, i.e. it never terminates and in particular returns no error. -/
theorem copyLoop_eof_diverges (reads : Nat → IORes) (writes : Nat → Nat → IORes)
    (size : Nat) :
    ∀ fuel rIdx wIdx written, written < size →
      (∀ j, rIdx ≤ j → reads j = .ok 0) →
      copyLoop reads writes size fuel rIdx wIdx written = .fuelOut := by
  intro fuel
  induction fuel with
  | zero =>
    intro rIdx wIdx written hlt _
    rw [copyLoop.eq_def, if_pos hlt]
  | succ f ih =>
    intro rIdx wIdx written hlt heof
    rw [copyLoop.eq_def, if_pos hlt]
    have hr := heof rIdx (by omega)
    have hw0 : writeFull writes 0 wIdx 0 0 = .done wIdx 0 := by
      rw [writeFull.eq_def, if_neg (by omega)]
    simp only [hr, hw0]
    exact ih (rIdx + 1) wIdx (written + 0) (by omega)
      (fun j hj => heof j (by omega))

/-- If the reads supply positive chunks whose running total first
reaches `size` after exactly `t` reads, the copy loop terminates after
those `t` reads and reports the full total as written. -/
theorem copyLoop_success (writes : Nat → Nat → IORes) (hw : writesOk writes)
    (c : Nat → Nat) (size : Nat) :
    ∀ t rIdx wIdx written,
      (∀ j, j < t → 0 < c (rIdx + j)) →
      (∀ j, j < t → written + psumFrom c rIdx j < size) →
      size ≤ written + psumFrom c rIdx t →
      copyLoop (fun j => .ok (c j)) writes size t rIdx wIdx written =
        .success (written + psumFrom c rIdx t) := by
  intro t
  induction t with
  | zero =>
    intro rIdx wIdx written _ _ hge
    have h0 : psumFrom c rIdx 0 = 0 := rfl
    rw [h0] at hge
    rw [copyLoop.eq_def, if_neg (by omega), h0]
    rfl
  | succ t ih =>
    intro rIdx wIdx written hpos hmin hge
    have hlt : written < size := by
      have h1 := hmin 0 (by omega)
      have h0 : psumFrom c rIdx 0 = 0 := rfl
      omega
    rw [copyLoop.eq_def, if_pos hlt]
    rcases writeFull_done writes hw (c rIdx) 0 wIdx (c rIdx) (by omega) (by omega)
      with ⟨w2, hdone⟩
    simp only [hdone]
    have hrec := ih (rIdx + 1) w2 (written + c rIdx)
      (fun j hj => by
        have := hpos (j + 1) (by omega)
        have harg : rIdx + (j + 1) = rIdx + 1 + j := by omega
        rw [harg] at this
        exact this)
      (fun j hj => by
        have := hmin (j + 1) (by omega)
        have hps : psumFrom c rIdx (j + 1) = c rIdx + psumFrom c (rIdx + 1) j := rfl
        omega)
      (by
        have hps : psumFrom c rIdx (t + 1) = c rIdx + psumFrom c (rIdx + 1) t := rfl
        omega)
    rw [hrec]
    have hps : psumFrom c rIdx (t + 1) = c rIdx + psumFrom c (rIdx + 1) t := rfl
    have heq : written + c rIdx + psumFrom c (rIdx + 1) t =
        written + psumFrom c rIdx (t + 1) := by
      rw [hps]; omega
    rw [heq]

/-! ## Claim theorems -/

/-- `calledPost` after the common second read, as a function of that
read's result: a non-EOF error or the byte `'f'` defer to the monitor;
EOF (buffer untouched) or any other byte lead to `PostStartProcess`. -/
theorem finishStart_calledPost (env : StartEnv) (ridx buf : Nat) (pre : Bool) :
    (finishStart env ridx buf pre).calledPost =
      (match env.reads ridx with
       | .errRes => false
       | .eofRes => !(buf == barrierFatalByte)
       | .byteRead b => !(b == barrierFatalByte)) := by
  unfold finishStart
  cases hr : env.reads ridx with
  | errRes => rfl
  | eofRes =>
    by_cases h : buf = barrierFatalByte
    · simp [h]
    · by_cases hp : env.postOk = true <;> simp [h, hp]
  | byteRead b =>
    by_cases h : b = barrierFatalByte
    · simp [h]
    · by_cases hp : env.postOk = true <;> simp [h, hp]

/-- The environment refuting claim C1: the engine implements
`PreStartProcess`, the first read yields `'c'` (99) and the second read
returns EOF. -/
def c1env : StartEnv :=
  { connOk := true
    hasPre := true
    preOk := true
    postOk := true
    reads := fun i => if i = 0 then .byteRead 99 else .eofRes }

/-- Claim C1 counterexample: after a first barrier byte `'c'` and a run
of `PreStartProcess`, a second read returning EOF does NOT defer to the
monitor — `PostStartProcess` is called, because `data[0]` still holds
the first byte, which is not `'f'`. -/
theorem C1_counterexample :
    c1env.reads 0 = .byteRead 99
    ∧ c1env.reads 1 = .eofRes
    ∧ (startContainer c1env).calledPre = true
    ∧ (startContainer c1env).calledPost = true :=
  ⟨rfl, rfl, rfl, rfl⟩

/-- Claim C1 (amended): in the master's start synchronizer, after a
first byte other than `'f'` has been read and `PreStartProcess` has
run, the master reads the master socket once more; if that second read
returns the byte `'f'` or fails with a non-EOF error, the master defers
to the monitor and does not call `PostStartProcess`; if it returns EOF
or any byte other than `'f'`, the master calls `PostStartProcess`. -/
theorem C1_second_read (env : StartEnv) (b : Nat)
    (hc : env.connOk = true) (hp : env.hasPre = true) (hpre : env.preOk = true)
    (h0 : env.reads 0 = .byteRead b) (hb : ¬(b = barrierFatalByte)) :
    (env.reads 1 = .eofRes → (startContainer env).calledPost = true)
    ∧ (∀ b2, env.reads 1 = .byteRead b2 → ¬(b2 = barrierFatalByte) →
        (startContainer env).calledPost = true)
    ∧ (env.reads 1 = .byteRead barrierFatalByte →
        (startContainer env).calledPost = false)
    ∧ (env.reads 1 = .errRes → (startContainer env).calledPost = false) := by
  have hstart : startContainer env = finishStart env 1 b true := by
    unfold startContainer
    simp [hc, hp, h0, hb, hpre]
  have hpost := finishStart_calledPost env 1 b true
  refine ⟨?_, ?_, ?_, ?_⟩
  · intro h1
    rw [hstart, hpost, h1]
    simp [hb]
  · intro b2 h1 hb2
    rw [hstart, hpost, h1]
    simp [hb2]
  · intro h1
    rw [hstart, hpost, h1]
    simp
  · intro h1
    rw [hstart, hpost, h1]

/-- A run where the second read returns the byte `'f'`. -/
def c1okEnv : StartEnv :=
  { connOk := true
    hasPre := true
    preOk := true
    postOk := true
    reads := fun i => if i = 0 then .byteRead 99 else .byteRead 102 }

/-- Witness for the amended claim C1 at a concrete environment. -/
theorem C1_witness : (startContainer c1okEnv).calledPost = false :=
  (C1_second_read c1okEnv 99 rfl rfl rfl rfl (by decide)).2.2.1 rfl

/-- The environment refuting claim C2: everything up to `luksFormat`
succeeds (in particular the loop attach), `luksFormat` fails, and
`cryptsetup --version` prints a 1.x version. -/
def c2env : EncEnv :=
  { statOk := true
    fileSize := 67108864
    tempOk := true
    tempName := "/tmp/crypt-head"
    truncOk := true
    loopOk := true
    findBin := some "/usr/sbin/cryptsetup"
    ownedByRoot := true
    formatOk := false
    formatOut := "Device /dev/loop0 is not a valid LUKS device."
    versionRunOk := true
    versionOut := "cryptsetup 1.7.5"
    openRes := .ok "u0"
    copyOk := true
    closeOk := true }

/-- Claim C2 counterexample: with a non-2.x cryptsetup,
`EncryptFilesystem` does return the distinguished unsupported-version
error, but at the moment of return a loop device HAS been attached for
this invocation — `createLoop` runs before `cryptsetup` is ever
invoked, contradicting the claim's "no loop device has been attached". -/
theorem C2_counterexample :
    strContains c2env.versionOut "cryptsetup 2." = false
    ∧ (encryptFilesystem c2env).res = .error CErr.unsupportedVersion
    ∧ (encryptFilesystem c2env).loopAttached = true :=
  ⟨by decide, rfl, rfl⟩

/-- Claim C2 (amended): for every invocation of `EncryptFilesystem` in
which the `luksFormat` step fails and the cryptsetup binary's
`--version` output does not report a 2.x version, `EncryptFilesystem`
returns the distinguished unsupported-version error, and at the moment
it returns a loop device has already been attached for this invocation
(the temporary file is attached to a loop device before cryptsetup is
invoked). -/
theorem C2_unsupported_after_loop (env : EncEnv) (bin : String)
    (h1 : env.statOk = true) (h2 : env.tempOk = true) (h3 : env.truncOk = true)
    (h4 : env.loopOk = true) (h5 : env.findBin = some bin)
    (h6 : env.ownedByRoot = true) (h7 : env.formatOk = false)
    (h8 : ¬(bin = "")) (h9 : env.versionRunOk = true)
    (h10 : strContains env.versionOut "cryptsetup 2." = false) :
    encryptFilesystem env = ⟨.error CErr.unsupportedVersion, true, true⟩ := by
  have hv := checkVersion_old bin env.versionRunOk env.versionOut h8 h9 h10
  unfold encryptFilesystem
  simp [h1, h2, h3, h4, h5, h6, h7, hv]

/-- Witness for the amended claim C2 at the concrete environment. -/
theorem C2_witness :
    encryptFilesystem c2env = ⟨.error CErr.unsupportedVersion, true, true⟩ :=
  C2_unsupported_after_loop c2env "/usr/sbin/cryptsetup" rfl rfl rfl rfl rfl rfl
    rfl (by decide) rfl (by decide)

/-- `Open` reduces to the attempt loop once the lock is held and the
located binary is owned by root. -/
theorem openDevice_loop (env : OpenEnv) (bin : String) (hl : env.lockOk = true)
    (hb : env.findBin = some bin) (hr : env.ownedByRoot = true) :
    openDevice env = openLoop env bin 0 := by
  unfold openDevice
  simp [hl, hb, hr]

/-- Claim C3: on "Device already exists" collisions `Open` retries with
a freshly generated mapper name, for at most 3 attempts in total; a run
whose first two attempts collide and whose third succeeds returns the
third attempt's name, and a run whose third attempt also collides fails
with the resource-exhausted error "unable to open crypt device". -/
theorem C3_open_retries (env : OpenEnv) (bin n0 n1 n2 : String)
    (hl : env.lockOk = true) (hb : env.findBin = some bin)
    (hr : env.ownedByRoot = true)
    (hu0 : env.uuidGen 0 = some n0) (hn0 : ¬(n0 = ""))
    (hc0 : env.openOk 0 = false)
    (hd0 : strContains (env.openOut 0) "Device already exists" = true)
    (hu1 : env.uuidGen 1 = some n1) (hn1 : ¬(n1 = ""))
    (hc1 : env.openOk 1 = false)
    (hd1 : strContains (env.openOut 1) "Device already exists" = true)
    (hu2 : env.uuidGen 2 = some n2) (hn2 : ¬(n2 = "")) :
    (env.openOk 2 = true → env.mapperStat 2 0 = .found →
      (openDevice env).res = .ok n2)
    ∧ (env.openOk 2 = false →
        strContains (env.openOut 2) "Device already exists" = true →
        (openDevice env).res = .error CErr.openExhausted)
    ∧ errMessage CErr.openExhausted = "unable to open crypt device" := by
  have hstart : openDevice env = openLoop env bin 0 := openDevice_loop env bin hl hb hr
  have h01 : openLoop env bin 0 = ⟨(openLoop env bin 1).res, true⟩ :=
    openLoop_collide env bin 0 n0 (by omega) hu0 hn0 hc0 hd0
  have h12 : openLoop env bin 1 = ⟨(openLoop env bin 2).res, true⟩ :=
    openLoop_collide env bin 1 n1 (by omega) hu1 hn1 hc1 hd1
  refine ⟨?_, ?_, rfl⟩
  · intro ho2 hm2
    have hp : mapperPoll (env.mapperStat 2) 0 = .opened [] :=
      mapperPoll_found (env.mapperStat 2) 0 hm2
    have h2 : openLoop env bin 2 = ⟨.ok n2, true⟩ :=
      openLoop_success env bin 2 n2 [] (by omega) hu2 hn2 ho2 hp
    rw [hstart, h01]
    show (openLoop env bin 1).res = _
    rw [h12]
    show (openLoop env bin 2).res = _
    rw [h2]
  · intro ho2 hd2
    have h23 : openLoop env bin 2 = ⟨(openLoop env bin 3).res, true⟩ :=
      openLoop_collide env bin 2 n2 (by omega) hu2 hn2 ho2 hd2
    have h3 : openLoop env bin 3 = ⟨.error CErr.openExhausted, false⟩ :=
      openLoop_exhausted env bin 3 (by omega)
    rw [hstart, h01]
    show (openLoop env bin 1).res = _
    rw [h12]
    show (openLoop env bin 2).res = _
    rw [h23]
    show (openLoop env bin 3).res = _
    rw [h3]

/-- A run of `Open` whose first two attempts collide and whose third
succeeds immediately. -/
def c3env : OpenEnv :=
  { lockOk := true
    findBin := some "/usr/sbin/cryptsetup"
    ownedByRoot := true
    uuidGen := fun i => some (if i = 2 then "u2" else "u0")
    openOk := fun i => decide (i = 2)
    openOut := fun _ => "Device already exists"
    versionRunOk := true
    versionOut := "cryptsetup 2.4.3"
    mapperStat := fun _ _ => StatRes.found }

/-- Witness for claim C3 at a concrete environment. -/
theorem C3_witness : (openDevice c3env).res = .ok "u2" :=
  (C3_open_retries c3env "/usr/sbin/cryptsetup" "u0" "u0" "u2" rfl rfl rfl
    rfl (by decide) rfl (by decide) rfl (by decide) rfl (by decide) rfl
    (by decide)).1 rfl rfl

/-- Claim C4: in `Open`'s device-appearance polling after a successful
cryptsetup open, the `k`-th wait (k starting at 0) is `100 * 2 ^ k` ms,
and the loop fails with the device-did-not-show-up error iff the
mapper file is absent at every check through the 9th (`k ≤ 8`), at
which point exactly 25500 ms = 25.5 s of cumulative delay have been
slept; if the file first appears at check `k ≤ 8` the loop succeeds
after the first `k` waits of that schedule. -/
theorem C4_poll_schedule (stat : Nat → StatRes) :
    ((∃ l, mapperPoll stat 0 = .timedOut l) ↔ ∀ k, k ≤ 8 → stat k = .absent)
    ∧ ((∀ k, k ≤ 8 → stat k = .absent) →
        mapperPoll stat 0 = .timedOut ((List.range 8).map fun j => 100 * 2 ^ j * msNS))
    ∧ (((List.range 8).map fun j => 100 * 2 ^ j * msNS).sum = 25500 * msNS)
    ∧ (∀ k, k ≤ 8 → stat k = .found → (∀ j, j < k → stat j = .absent) →
        mapperPoll stat 0 = .opened ((List.range k).map fun j => 100 * 2 ^ j * msNS))
    ∧ (∀ env : OpenEnv, ∀ bin n, env.lockOk = true → env.findBin = some bin →
        env.ownedByRoot = true → env.uuidGen 0 = some n → ¬(n = "") →
        env.openOk 0 = true → env.mapperStat 0 = stat →
        ((openDevice env).res = .error (CErr.deviceTimeout n) ↔
          ∀ k, k ≤ 8 → stat k = .absent)) := by
  have hfun : (fun j => 100 * 2 ^ (0 + j) * msNS) = fun j : Nat => 100 * 2 ^ j * msNS := by
    funext j
    rw [Nat.zero_add]
  have hiff := mapperPoll_timeout_iff_aux stat 8 0 (by omega)
  have hiff0 : (∃ l, mapperPoll stat 0 = .timedOut l) ↔ ∀ k, k ≤ 8 → stat k = .absent := by
    rw [hiff]
    constructor
    · intro h k hk
      exact h k (by omega) hk
    · intro h k _ hk
      exact h k hk
  have hsleeps : (∀ k, k ≤ 8 → stat k = .absent) →
      mapperPoll stat 0 = .timedOut ((List.range 8).map fun j => 100 * 2 ^ j * msNS) := by
    intro hall
    have := mapperPoll_timeout_sleeps_aux stat 8 0 (by omega)
      (fun k _ hk => hall k hk)
    rw [hfun] at this
    exact this
  refine ⟨hiff0, hsleeps, by rfl, ?_, ?_⟩
  · intro k hk hf habs
    have := mapperPoll_opened_aux stat k 0 (by omega)
      (fun j _ hj => habs j (by simpa using hj)) (by simpa using hf)
    rw [hfun] at this
    exact this
  · intro env bin n hl hb hr hu hn ho hms
    have hstart : openDevice env = openLoop env bin 0 := openDevice_loop env bin hl hb hr
    rcases hp : mapperPoll (env.mapperStat 0) 0 with l | l | l
    · have heval := openLoop_success env bin 0 n l (by omega) hu hn ho hp
      rw [hstart, heval]
      rw [hms] at hp
      constructor
      · intro hcontra
        cases hcontra
      · intro hall
        rcases hiff0.2 hall with ⟨l2, hl2⟩
        rw [hp] at hl2
        cases hl2
    · have heval := openLoop_timeout env bin 0 n l (by omega) hu hn ho hp
      rw [hstart, heval]
      rw [hms] at hp
      constructor
      · intro _
        exact hiff0.1 ⟨l, hp⟩
      · intro _
        rfl
    · have heval : openLoop env bin 0 = ⟨.error CErr.statErrOther, true⟩ := by
        conv_lhs => rw [openLoop.eq_def]
        simp [hu, hn, ho, hp]
      rw [hstart, heval]
      rw [hms] at hp
      constructor
      · intro hcontra
        cases hcontra
      · intro hall
        rcases hiff0.2 hall with ⟨l2, hl2⟩
        rw [hp] at hl2
        cases hl2

/-- Witness for claim C4: a device that never appears times out after
the full 25.5 s schedule. -/
theorem C4_witness :
    mapperPoll (fun _ => StatRes.absent) 0 =
      .timedOut ((List.range 8).map fun j => 100 * 2 ^ j * msNS)
    ∧ ((List.range 8).map fun j => 100 * 2 ^ j * msNS).sum = 25500 * msNS :=
  ⟨(C4_poll_schedule (fun _ => StatRes.absent)).2.1 (fun _ _ => rfl),
   (C4_poll_schedule (fun _ => StatRes.absent)).2.2.1⟩

/-- Claim C5: for every call to `Open` where a cryptsetup open attempt
(possibly after earlier name collisions) fails with output containing
"No key available" and not containing "Device already exists", and the
installed cryptsetup reports a 2.x version, `Open` returns the
distinguished sentinel `ErrInvalidPassphrase`, whose message is
"no key available with this passphrase". -/
theorem C5_invalid_passphrase (env : OpenEnv) (bin : String) (nms : Nat → String)
    (i : Nat) (h3 : i < 3)
    (hl : env.lockOk = true) (hb : env.findBin = some bin)
    (hr : env.ownedByRoot = true)
    (hprev : ∀ j, j < i → env.uuidGen j = some (nms j) ∧ ¬(nms j = "") ∧
      env.openOk j = false ∧
      strContains (env.openOut j) "Device already exists" = true)
    (hu : env.uuidGen i = some (nms i)) (hn : ¬(nms i = ""))
    (ho : env.openOk i = false)
    (hd : strContains (env.openOut i) "Device already exists" = false)
    (hv : env.versionRunOk = true)
    (hv2 : strContains env.versionOut "cryptsetup 2." = true)
    (hk : strContains (env.openOut i) "No key available" = true) :
    (openDevice env).res = .error CErr.invalidPassphrase
    ∧ errMessage CErr.invalidPassphrase = "no key available with this passphrase" := by
  have hstart : openDevice env = openLoop env bin 0 := openDevice_loop env bin hl hb hr
  have hreach := openLoop_reach env bin nms i (by omega) hprev
  have hverr := checkVersion_two bin env.versionRunOk env.versionOut hv hv2
  have heval := openLoop_invalidPass env bin i (nms i) h3 hu hn ho
    (by rw [hd]) hverr hk
  constructor
  · rw [hstart, hreach, heval]
  · rfl

/-- A run of `Open` whose first attempt fails with "No key available". -/
def c5env : OpenEnv :=
  { lockOk := true
    findBin := some "/usr/sbin/cryptsetup"
    ownedByRoot := true
    uuidGen := fun _ => some "u0"
    openOk := fun _ => false
    openOut := fun _ => "No key available with this passphrase."
    versionRunOk := true
    versionOut := "cryptsetup 2.4.3"
    mapperStat := fun _ _ => StatRes.found }

/-- Witness for claim C5 at a concrete environment. -/
theorem C5_witness : (openDevice c5env).res = .error CErr.invalidPassphrase :=
  (C5_invalid_passphrase c5env "/usr/sbin/cryptsetup" (fun _ => "u0") 0 (by omega)
    rfl rfl rfl (fun j hj => absurd hj (by omega)) rfl (by decide) rfl (by decide)
    rfl (by decide) (by decide)).1

/-- Claim C6: each of `Open`, `CloseCryptDevice` and `EncryptFilesystem`
fails with an error — without ever invoking the cryptsetup binary for
its main operation (`open`, `close`, `luksFormat` respectively) —
whenever the located cryptsetup binary is not owned by uid 0. -/
theorem C6_owner_check (oenv : OpenEnv) (cenv : CloseEnv) (eenv : EncEnv)
    (obin cbin ebin : String)
    (h1 : oenv.lockOk = true) (h2 : oenv.findBin = some obin)
    (h3 : oenv.ownedByRoot = false)
    (h4 : cenv.findBin = some cbin) (h5 : cenv.ownedByRoot = false)
    (h6 : eenv.statOk = true) (h7 : eenv.tempOk = true) (h8 : eenv.truncOk = true)
    (h9 : eenv.loopOk = true) (h10 : eenv.findBin = some ebin)
    (h11 : eenv.ownedByRoot = false) :
    openDevice oenv = ⟨.error (CErr.notOwnedByRoot obin), false⟩
    ∧ closeCryptDevice cenv = ⟨some (CErr.notOwnedByRoot cbin), false⟩
    ∧ encryptFilesystem eenv = ⟨.error (CErr.notOwnedByRoot ebin), true, false⟩ := by
  refine ⟨?_, ?_, ?_⟩
  · unfold openDevice
    simp [h1, h2, h3]
  · unfold closeCryptDevice
    simp [h4, h5]
  · unfold encryptFilesystem
    simp [h6, h7, h8, h9, h10, h11]

/-- `Open` call with a non-root-owned binary. -/
def c6openEnv : OpenEnv :=
  { lockOk := true
    findBin := some "/opt/cryptsetup"
    ownedByRoot := false
    uuidGen := fun _ => some "u0"
    openOk := fun _ => false
    openOut := fun _ => ""
    versionRunOk := true
    versionOut := "cryptsetup 2.0.0"
    mapperStat := fun _ _ => StatRes.found }

/-- `CloseCryptDevice` call with a non-root-owned binary. -/
def c6closeEnv : CloseEnv :=
  { findBin := some "/opt/cryptsetup"
    ownedByRoot := false
    lockOk := true
    closeRunOk := true }

/-- `EncryptFilesystem` call with a non-root-owned binary. -/
def c6encEnv : EncEnv :=
  { statOk := true
    fileSize := 64
    tempOk := true
    tempName := "/tmp/crypt-1"
    truncOk := true
    loopOk := true
    findBin := some "/opt/cryptsetup"
    ownedByRoot := false
    formatOk := true
    formatOut := ""
    versionRunOk := true
    versionOut := "cryptsetup 2.0.0"
    openRes := .ok "u0"
    copyOk := true
    closeOk := true }

/-- Witness for claim C6 at concrete environments. -/
theorem C6_witness :
    openDevice c6openEnv = ⟨.error (CErr.notOwnedByRoot "/opt/cryptsetup"), false⟩
    ∧ closeCryptDevice c6closeEnv =
        ⟨some (CErr.notOwnedByRoot "/opt/cryptsetup"), false⟩
    ∧ encryptFilesystem c6encEnv =
        ⟨.error (CErr.notOwnedByRoot "/opt/cryptsetup"), true, false⟩ :=
  C6_owner_check c6openEnv c6closeEnv c6encEnv "/opt/cryptsetup" "/opt/cryptsetup"
    "/opt/cryptsetup" rfl rfl rfl rfl rfl rfl rfl rfl rfl rfl rfl

/-- Claim C7 counterexample: `Master` calls `signal.Notify(signals)`
with no signal list, so every incoming signal — including `SIGURG`
(23) — is relayed into the channel; the channel's capacity of 2 was
chosen precisely because `SIGURG` preemption signals do arrive. -/
theorem C7_counterexample :
    masterQueuesSignal sigURG = true
    ∧ sigURG = 23
    ∧ masterNotifySignals = []
    ∧ masterSignalChanCapacity = 2 :=
  ⟨rfl, rfl, rfl, rfl⟩

/-- Claim C7 (amended): the master's process-wide signal handler queues
every received signal — including `SIGURG` — into a bounded channel of
capacity 2 (hence at least 2). -/
theorem C7_all_signals_queued :
    (∀ s, masterQueuesSignal s = true) ∧ 2 ≤ masterSignalChanCapacity :=
  ⟨fun _ => rfl, Nat.le_refl 2⟩

/-- Claim C8: with no fatal error delivered, if `MonitorContainer`
reports the child terminated by signal `s` the master resets its signal
handlers, re-raises `s` on itself and exits with code `128 + s`; if it
reports a normal exit the master exits with exactly the child's exit
status. -/
theorem C8_master_exit (w : Nat) :
    (waitSignaled w = true →
      masterFinish false w = ⟨false, true, some (waitSignal w), 128 + waitSignal w⟩)
    ∧ (waitExited w = true →
        masterFinish false w = ⟨false, true, none, waitExitStatus w⟩) := by
  constructor
  · intro hs
    unfold masterFinish
    simp [hs]
  · intro he
    have h0 : w &&& 0x7f = 0 := by
      simpa [waitExited] using he
    have hs : waitSignaled w = false := by
      unfold waitSignaled
      rw [h0]
      decide
    unfold masterFinish
    simp [hs, he]

/-- Witness for claim C8: a child killed by SIGKILL (wait status 9)
gives exit code 137 after re-raising 9; a child exiting with status 43
(wait status `43 << 8`) gives exit code 43. -/
theorem C8_witness :
    masterFinish false 9 = ⟨false, true, some 9, 137⟩
    ∧ masterFinish false 11008 = ⟨false, true, none, 43⟩ := by
  constructor
  · rw [(C8_master_exit 9).1 (by decide)]
    decide
  · rw [(C8_master_exit 11008).2 (by decide)]
    decide

/-- Claim C9: `copyDeviceContents`'s loop terminates exactly when the
reads supply at least `size` bytes — each successful read is written in
full and counted, and the loop ends once the written total reaches
`size` — while a source at end-of-file (reads of 0 bytes with `nil`
error) below `size` makes the loop run forever without returning an
error: it exhausts every fuel bound. -/
theorem C9_copy_loop (reads : Nat → IORes) (writes : Nat → Nat → IORes)
    (c : Nat → Nat) (size : Nat) :
    (∀ fuel rIdx wIdx written, written < size →
      (∀ j, rIdx ≤ j → reads j = .ok 0) →
      copyLoop reads writes size fuel rIdx wIdx written = .fuelOut)
    ∧ (writesOk writes →
        ∀ t, (∀ j, j < t → 0 < c j) →
          (∀ j, j < t → psumFrom c 0 j < size) →
          size ≤ psumFrom c 0 t →
          copyLoop (fun j => .ok (c j)) writes size t 0 0 0 =
            .success (psumFrom c 0 t)) := by
  constructor
  · exact copyLoop_eof_diverges reads writes size
  · intro hw t hpos hmin hge
    have h := copyLoop_success writes hw c size t 0 0 0
      (fun j hj => by simpa using hpos j hj)
      (fun j hj => by simpa using hmin j hj)
      (by simpa using hge)
    simpa using h

/-- Witness for claim C9: an EOF source never finishes no matter the
fuel (here 100), while 3-byte reads against size 5 finish after two
reads with 6 bytes written. -/
theorem C9_witness :
    copyLoop (fun _ => IORes.ok 0) (fun _ req => IORes.ok req) 1 100 0 0 0 =
      CopyRes.fuelOut
    ∧ copyLoop (fun _ => IORes.ok 3) (fun _ req => IORes.ok req) 5 2 0 0 0 =
        CopyRes.success 6 := by
  constructor
  · exact (C9_copy_loop (fun _ => IORes.ok 0) (fun _ req => IORes.ok req)
      (fun _ => 3) 1).1 100 0 0 0 (by omega) (fun j _ => rfl)
  · exact (C9_copy_loop (fun _ => IORes.ok 3) (fun _ req => IORes.ok req)
      (fun _ => 3) 5).2 (fun i req hreq => ⟨req, rfl, hreq, Nat.le_refl req⟩)
      2 (fun j _ => by omega) (by decide) (by decide)

/-- Claim C10: the `fileInfo` RPC snapshot reports `Name`, `Size` and
`Mode` exactly as captured at construction, and `ModTime()` returns the
captured time when it is non-zero; when the captured time is the zero
`time.Time`, every call returns the current wall-clock time, so two
calls at different instants return different values. -/
theorem C10_fileinfo (name : String) (size : Int) (mode : Nat) (mtime : Nat)
    (sys : Option String) (now1 now2 : Nat) :
    fiName (mkFileInfo name size mode mtime sys) = name
    ∧ fiSize (mkFileInfo name size mode mtime sys) = size
    ∧ fiMode (mkFileInfo name size mode mtime sys) = mode
    ∧ (¬(mtime = 0) → fiModTime (mkFileInfo name size mode mtime sys) now1 = mtime)
    ∧ (mtime = 0 →
        fiModTime (mkFileInfo name size mode mtime sys) now1 = now1
        ∧ fiModTime (mkFileInfo name size mode mtime sys) now2 = now2)
    ∧ (mtime = 0 → ¬(now1 = now2) →
        ¬(fiModTime (mkFileInfo name size mode mtime sys) now1 =
          fiModTime (mkFileInfo name size mode mtime sys) now2)) := by
  refine ⟨rfl, rfl, rfl, ?_, ?_, ?_⟩
  · intro h
    unfold fiModTime timeIsZero mkFileInfo
    simp [h]
  · intro h
    subst h
    exact ⟨rfl, rfl⟩
  · intro h hne
    subst h
    exact hne

/-- Witness for claim C10: a zero captured mod-time echoes the clock. -/
theorem C10_witness :
    fiModTime (mkFileInfo "f" 10 420 0 none) 5 = 5
    ∧ fiModTime (mkFileInfo "f" 10 420 0 none) 7 = 7
    ∧ ¬(fiModTime (mkFileInfo "f" 10 420 0 none) 5 =
        fiModTime (mkFileInfo "f" 10 420 0 none) 7) := by
  have h := C10_fileinfo "f" 10 420 0 none 5 7
  exact ⟨(h.2.2.2.2.1 rfl).1, (h.2.2.2.2.1 rfl).2, h.2.2.2.2.2 rfl (by decide)⟩
